import Mathlib

/-!
Verification of the `adapter_websocket` Windows plugin glue code
(`src/windows/adapter_websocket_plugin.h` and
`src/windows/adapter_websocket_plugin_c_api.cpp`) against its
natural-language specification.

The repository contains only a class declaration and a C-linkage
registration shim.  The shim's body is in the source; the bodies of
`RegisterWithRegistrar`, the constructor/destructor and
`HandleMethodCall` are declared but not implemented in the given
source, so those operations are modelled from the specification and
marked as such in their doc comments.

The host environment is embedded as an explicit state (`HostState`)
holding the process-wide registrar-manager table, the per-registrar
handler lists, the set of live plugin instances and the resources they
own; each C++ operation becomes a state-passing Lean function.
-/

namespace AdapterWebsocket

/-- Opaque `FlutterDesktopPluginRegistrarRef` handle, embedded as a number. -/
abbrev RegistrarHandle := Nat

/-- Identity of a concrete `flutter::PluginRegistrarWindows` object. -/
abbrev RegistrarId := Nat

/-- Identity of a constructed `AdapterWebsocketPlugin` instance. -/
abbrev PluginId := Nat

/-- Modelled from the spec: the name of the plugin's method channel.  The
channel name literal lives in the missing `adapter_websocket_plugin.cpp`;
the spec only says the handler is attached to "a named channel", so the
model fixes one concrete name. -/
def adapterWebsocketChannelName : String := "adapter_websocket"

/-- `flutter::EncodableValue`, opaque to this code; a small stand-in type. -/
inductive EncodableValue where
  | nullV : EncodableValue
  | boolV : Bool → EncodableValue
  | intV : Int → EncodableValue
  | strV : String → EncodableValue
deriving DecidableEq, Repr

/-- A `flutter::MethodCall<EncodableValue>`: a method name with a payload. -/
structure MethodCall where
  method : String
  arguments : EncodableValue
deriving DecidableEq, Repr

/-- The three ways a `flutter::MethodResult` can be resolved. -/
inductive MethodResolution where
  | success : EncodableValue → MethodResolution
  | errorRes : String → String → MethodResolution
  | notImplemented : MethodResolution
deriving DecidableEq, Repr

/-- A handler attached to a registrar's method-channel transport:
the channel name it listens on and the plugin instance that owns it. -/
structure MethodChannelHandler where
  channel : String
  pluginId : PluginId
deriving DecidableEq, Repr

/-- The state of one `flutter::PluginRegistrarWindows`: the handlers
attached to its method-channel transport. -/
structure RegistrarState where
  handlers : List MethodChannelHandler
deriving DecidableEq, Repr

/-- The host-process state visible to this plugin's glue code. -/
structure HostState where
  /-- The `PluginRegistrarManager` singleton's table mapping opaque
  handles to concrete Windows registrars (host-managed). -/
  managerTable : List (RegistrarHandle × RegistrarId)
  /-- Per-registrar state, keyed by registrar identity. -/
  registrars : List (RegistrarId × RegistrarState)
  /-- Live plugin instances (host-owned once registered). -/
  plugins : List PluginId
  /-- Next fresh plugin-instance identity. -/
  nextPluginId : PluginId
  /-- Resources owned by plugin instances (none are ever acquired by
  the code in this repository). -/
  ownedResources : List Nat
  /-- Errors reported to the host by this plugin's code. -/
  reportedErrors : List String
deriving DecidableEq, Repr

/-- The host state at process start: nothing registered, nothing owned. -/
def initState : HostState :=
  { managerTable := [], registrars := [], plugins := [], nextPluginId := 0,
    ownedResources := [], reportedErrors := [] }

/-- Update (or insert) the entry for key `k` in an association list of
registrar states. -/
def updateAssoc (l : List (RegistrarId × RegistrarState)) (k : RegistrarId)
    (v : RegistrarState) : List (RegistrarId × RegistrarState) :=
  match l with
  | [] => [(k, v)]
  | (k', v') :: rest =>
      if k' = k then (k, v) :: rest else (k', v') :: updateAssoc rest k v

/-- The handlers currently attached to registrar `rid` in state `s`
(a registrar not yet in the table has no handlers). -/
def registrarHandlers (s : HostState) (rid : RegistrarId) :
    List MethodChannelHandler :=
  ((s.registrars.lookup rid).getD ⟨[]⟩).handlers

/-- `flutter::PluginRegistrarManager::GetInstance()->GetRegistrar<...>(h)`:
the process-wide singleton resolves the opaque handle to the concrete
Windows registrar.  A handle not yet in the table resolves to the wrapper
the manager lazily creates for it, identified here by the handle's value. -/
def GetRegistrar (s : HostState) (h : RegistrarHandle) : RegistrarId :=
  (s.managerTable.lookup h).getD h

/-- Construct an `AdapterWebsocketPlugin` with no arguments.  Modelled from
the spec: the constructor body is in the missing
`adapter_websocket_plugin.cpp`; per the spec it takes no arguments and
acquires no resources.  Returns the fresh instance and the new state. -/
def constructPlugin (s : HostState) : PluginId × HostState :=
  (s.nextPluginId,
    { s with plugins := s.plugins ++ [s.nextPluginId],
             nextPluginId := s.nextPluginId + 1 })

/-- Destruct plugin instance `p`.  Modelled from the spec: the destructor
body is in the missing `adapter_websocket_plugin.cpp`; per the spec the
object owns no resources, so destruction only removes the instance. -/
def destructPlugin (p : PluginId) (s : HostState) : HostState :=
  { s with plugins := s.plugins.filter (· ≠ p) }

/-- Attach a handler to registrar `rid`'s method-channel transport. -/
def attachHandler (s : HostState) (rid : RegistrarId)
    (hnd : MethodChannelHandler) : HostState :=
  { s with registrars :=
      updateAssoc s.registrars rid ⟨registrarHandlers s rid ++ [hnd]⟩ }

/-- `AdapterWebsocketPlugin::RegisterWithRegistrar(registrar)`.  Modelled
from the spec: the body is in the missing `adapter_websocket_plugin.cpp`;
per the spec it "constructs the plugin and attaches its channel handler to
the given registrar; no return value; side effect is channel registration
on the host's method-channel transport". -/
def RegisterWithRegistrar (rid : RegistrarId) (s : HostState) : HostState :=
  let (p, s1) := constructPlugin s
  attachHandler s1 rid ⟨adapterWebsocketChannelName, p⟩

/-- Embedding of `AdapterWebsocketPluginCApiRegisterWithRegistrar` from
`src/windows/adapter_websocket_plugin_c_api.cpp`: resolve the opaque
handle through the `PluginRegistrarManager` singleton, then call the
static factory on the resolved Windows registrar.  The C function returns
`void`; its effect is the state transformation. -/
def AdapterWebsocketPluginCApiRegisterWithRegistrar (h : RegistrarHandle)
    (s : HostState) : HostState :=
  RegisterWithRegistrar (GetRegistrar s h) s

/-- Spec-side description of the shim, written from the spec's words:
"given an opaque registrar reference, resolves it to the concrete windows
registrar type via a process-wide manager singleton, then delegates to
4.1's static factory" — and nothing else. -/
def registerViaManagerSpec (h : RegistrarHandle) (s : HostState) : HostState :=
  let rid := GetRegistrar s h
  RegisterWithRegistrar rid s

/-- `HandleMethodCall`'s single resolution of the `result` object.
Modelled from the spec: the dispatch body is in the missing
`adapter_websocket_plugin.cpp`; the spec fixes no method names or
payloads, only that the result is resolved exactly once with success,
error, or not-implemented.  The model resolves every call once. -/
def HandleMethodCall (call : MethodCall) : MethodResolution :=
  match call.method with
  | _ => MethodResolution.notImplemented

/-- The resolutions performed on the `result` object across one
invocation of `HandleMethodCall`. -/
def resolutionsOf (call : MethodCall) : List MethodResolution :=
  [HandleMethodCall call]

/-- One registration step of the host's bootstrap: per the spec the
C-linkage shim is "called once by the host embedder at startup" for a
given registrar, so a step registers only a registrar that has no
handler yet. -/
inductive RegStep : HostState → HostState → Prop where
  | register (h : RegistrarHandle) (s : HostState)
      (honce : registrarHandlers s (GetRegistrar s h) = []) :
      RegStep s (AdapterWebsocketPluginCApiRegisterWithRegistrar h s)

/-- States reachable from process start by registration steps. -/
inductive Reachable : HostState → Prop where
  | init : Reachable initState
  | step : ∀ {s s'}, Reachable s → RegStep s s' → Reachable s'

/-- The public interface of the plugin glue code, one constructor per
operation declared in `adapter_websocket_plugin.h` /
`adapter_websocket_plugin_c_api.cpp`.  The copy constructor and copy
assignment are deleted in the header, so no copying operation exists
here. -/
inductive PluginOp where
  | registerViaCApi (h : RegistrarHandle)
  | handleCall (call : MethodCall)
  | destruct (p : PluginId)
deriving DecidableEq, Repr

/-- Apply one public-interface operation to the host state.  A method
call only resolves its `result` object (modelled by `resolutionsOf`);
it changes no plugin-instance state shown in the source. -/
def applyOp : PluginOp → HostState → HostState
  | PluginOp.registerViaCApi h, s =>
      AdapterWebsocketPluginCApiRegisterWithRegistrar h s
  | PluginOp.handleCall _, s => s
  | PluginOp.destruct p, s => destructPlugin p s

/-- Who currently owns the `MethodResult` object of one method call. -/
inductive ResultOwner where
  | hostCaller
  | pluginHandler
deriving DecidableEq, Repr

/-- The state of one `MethodResult` object: its owner and the
resolutions performed on it so far. -/
structure ResultState where
  owner : ResultOwner
  resolutions : List MethodResolution
deriving DecidableEq, Repr

/-- Invoking `HandleMethodCall(call, result)`: the `result` parameter is
a `std::unique_ptr` passed by value, so the invocation moves ownership
of the result from the host caller into the handler, which resolves it. -/
def invokeHandleMethodCall (call : MethodCall) (r : ResultState) : ResultState :=
  { owner := ResultOwner.pluginHandler,
    resolutions := r.resolutions ++ [HandleMethodCall call] }

/-- A resolution attempt by the host caller: it succeeds only while the
caller still owns the result object. -/
def hostResolve (res : MethodResolution) (r : ResultState) :
    Option ResultState :=
  if r.owner = ResultOwner.hostCaller then
    some { r with resolutions := r.resolutions ++ [res] }
  else none

/-! ### Helper lemmas -/

theorem lookup_updateAssoc_self (l : List (RegistrarId × RegistrarState))
    (k : RegistrarId) (v : RegistrarState) :
    (updateAssoc l k v).lookup k = some v := by
  induction l with
  | nil => simp [updateAssoc, List.lookup]
  | cons hd tl ih =>
    obtain ⟨k', v'⟩ := hd
    by_cases hk : k' = k
    · simp [updateAssoc, hk, List.lookup]
    · have hb : (k == k') = false := by simp [Ne.symm hk]
      simp [updateAssoc, hk, List.lookup, hb, ih]

theorem lookup_updateAssoc_other (l : List (RegistrarId × RegistrarState))
    (k k' : RegistrarId) (v : RegistrarState) (hk : k' ≠ k) :
    (updateAssoc l k v).lookup k' = l.lookup k' := by
  have hb : (k' == k) = false := by simp [hk]
  induction l with
  | nil => simp [updateAssoc, List.lookup, hb]
  | cons hd tl ih =>
    obtain ⟨k0, v0⟩ := hd
    by_cases h0 : k0 = k
    · subst h0
      simp [updateAssoc, List.lookup, hb]
    · simp [updateAssoc, h0, List.lookup, ih]

theorem registrarHandlers_attachHandler_self (s : HostState)
    (rid : RegistrarId) (hnd : MethodChannelHandler) :
    registrarHandlers (attachHandler s rid hnd) rid
      = registrarHandlers s rid ++ [hnd] := by
  unfold registrarHandlers attachHandler
  simp [lookup_updateAssoc_self]
  rfl

theorem registrarHandlers_attachHandler_other (s : HostState)
    (rid rid' : RegistrarId) (hnd : MethodChannelHandler) (h : rid' ≠ rid) :
    registrarHandlers (attachHandler s rid hnd) rid'
      = registrarHandlers s rid' := by
  unfold registrarHandlers attachHandler
  simp [lookup_updateAssoc_other _ _ _ _ h]

theorem registrarHandlers_construct (s : HostState) (rid : RegistrarId) :
    registrarHandlers (constructPlugin s).2 rid = registrarHandlers s rid := by
  rfl

theorem registrarHandlers_register_self (rid : RegistrarId) (s : HostState) :
    registrarHandlers (RegisterWithRegistrar rid s) rid
      = registrarHandlers s rid
          ++ [⟨adapterWebsocketChannelName, s.nextPluginId⟩] := by
  show registrarHandlers
      (attachHandler (constructPlugin s).2 rid
        ⟨adapterWebsocketChannelName, (constructPlugin s).1⟩) rid = _
  rw [registrarHandlers_attachHandler_self, registrarHandlers_construct]
  rfl

theorem registrarHandlers_register_other (rid rid' : RegistrarId)
    (s : HostState) (h : rid' ≠ rid) :
    registrarHandlers (RegisterWithRegistrar rid s) rid'
      = registrarHandlers s rid' := by
  show registrarHandlers
      (attachHandler (constructPlugin s).2 rid
        ⟨adapterWebsocketChannelName, (constructPlugin s).1⟩) rid' = _
  rw [registrarHandlers_attachHandler_other _ _ _ _ h,
    registrarHandlers_construct]

theorem registrarHandlers_initState (rid : RegistrarId) :
    registrarHandlers initState rid = [] := by
  simp [registrarHandlers, initState, List.lookup]

/-- A host state whose manager table maps the two distinct handles 0 and
1 to the same concrete registrar 5; used to exercise lookup-only use of
the handle on a concrete input. -/
def twoHandleState : HostState :=
  { initState with managerTable := [(0, 5), (1, 5)] }

/-! ### Claims -/

/-- C1: for every opaque registrar handle `h`, the C-linkage entry point
`AdapterWebsocketPluginCApiRegisterWithRegistrar(h)` equals the
composition: resolve `h` to the concrete Windows registrar via the
process-wide `PluginRegistrarManager` singleton, then call
`AdapterWebsocketPlugin::RegisterWithRegistrar` on the resolved
registrar; and it performs nothing else (the manager table, owned
resources and reported errors are untouched). -/
theorem c1_shim_is_resolve_then_register (h : RegistrarHandle)
    (s : HostState) :
    AdapterWebsocketPluginCApiRegisterWithRegistrar h s
      = registerViaManagerSpec h s ∧
    (AdapterWebsocketPluginCApiRegisterWithRegistrar h s).managerTable
      = s.managerTable ∧
    (AdapterWebsocketPluginCApiRegisterWithRegistrar h s).ownedResources
      = s.ownedResources ∧
    (AdapterWebsocketPluginCApiRegisterWithRegistrar h s).reportedErrors
      = s.reportedErrors :=
  ⟨rfl, rfl, rfl, rfl⟩

/-- C2: for every registrar `rid`, the static factory
`RegisterWithRegistrar(rid)` constructs one plugin instance and attaches
its method-channel handler to `rid`; it returns no value (it is a pure
state transformer), and its only side effect is channel registration:
other registrars, the manager table, owned resources and reported errors
are unchanged. -/
theorem c2_register_constructs_and_attaches (rid : RegistrarId)
    (s : HostState) :
    ∃ p : PluginId,
      (RegisterWithRegistrar rid s).plugins = s.plugins ++ [p] ∧
      registrarHandlers (RegisterWithRegistrar rid s) rid
        = registrarHandlers s rid ++ [⟨adapterWebsocketChannelName, p⟩] ∧
      (∀ rid' : RegistrarId, rid' ≠ rid →
        registrarHandlers (RegisterWithRegistrar rid s) rid'
          = registrarHandlers s rid') ∧
      (RegisterWithRegistrar rid s).managerTable = s.managerTable ∧
      (RegisterWithRegistrar rid s).ownedResources = s.ownedResources ∧
      (RegisterWithRegistrar rid s).reportedErrors = s.reportedErrors := by
  refine ⟨s.nextPluginId, rfl, registrarHandlers_register_self rid s,
    ?_, rfl, rfl, rfl⟩
  intro rid' h
  exact registrarHandlers_register_other rid rid' s h

/-- Witness for C2 at the concrete registrar 0 and the initial state. -/
theorem c2_witness :
    ∃ p : PluginId,
      (RegisterWithRegistrar 0 initState).plugins
        = initState.plugins ++ [p] ∧
      registrarHandlers (RegisterWithRegistrar 0 initState) 0
        = registrarHandlers initState 0
            ++ [⟨adapterWebsocketChannelName, p⟩] ∧
      (∀ rid' : RegistrarId, rid' ≠ 0 →
        registrarHandlers (RegisterWithRegistrar 0 initState) rid'
          = registrarHandlers initState rid') ∧
      (RegisterWithRegistrar 0 initState).managerTable
        = initState.managerTable ∧
      (RegisterWithRegistrar 0 initState).ownedResources
        = initState.ownedResources ∧
      (RegisterWithRegistrar 0 initState).reportedErrors
        = initState.reportedErrors :=
  c2_register_constructs_and_attaches 0 initState

/-- C3: every invocation of `HandleMethodCall(call, result)` resolves the
result object exactly once, and the resolution is one of success, error
or not-implemented. -/
theorem c3_result_resolved_exactly_once (call : MethodCall) :
    (resolutionsOf call).length = 1 ∧
    ((∃ v, resolutionsOf call = [MethodResolution.success v]) ∨
     (∃ c m, resolutionsOf call = [MethodResolution.errorRes c m]) ∨
     resolutionsOf call = [MethodResolution.notImplemented]) :=
  ⟨rfl, Or.inr (Or.inr rfl)⟩

/-- C4: registering the plugin exactly once with a registrar that has no
handler yet results in exactly one handler attached to the expected
channel name on that registrar. -/
theorem c4_one_handler_on_channel (h : RegistrarHandle) (s : HostState)
    (hfresh : registrarHandlers s (GetRegistrar s h) = []) :
    ((registrarHandlers (AdapterWebsocketPluginCApiRegisterWithRegistrar h s)
        (GetRegistrar s h)).countP
      (fun hnd => hnd.channel == adapterWebsocketChannelName)) = 1 := by
  unfold AdapterWebsocketPluginCApiRegisterWithRegistrar
  rw [registrarHandlers_register_self, hfresh]
  rfl

/-- Witness for C4 at the concrete handle 0 and the initial state. -/
theorem c4_witness :
    registrarHandlers initState (GetRegistrar initState 0) = [] ∧
    ((registrarHandlers
        (AdapterWebsocketPluginCApiRegisterWithRegistrar 0 initState)
        (GetRegistrar initState 0)).countP
      (fun hnd => hnd.channel == adapterWebsocketChannelName)) = 1 :=
  ⟨by rfl, c4_one_handler_on_channel 0 initState (by rfl)⟩

/-- C5: the registration shim has no error path: for every registrar
handle it is pure forwarding (even for handles absent from the manager
table, which resolve to a lazily created wrapper), and it reports no
error to the caller. -/
theorem c5_shim_no_error_path (h : RegistrarHandle) (s : HostState) :
    AdapterWebsocketPluginCApiRegisterWithRegistrar h s
      = RegisterWithRegistrar (GetRegistrar s h) s ∧
    (AdapterWebsocketPluginCApiRegisterWithRegistrar h s).reportedErrors
      = s.reportedErrors :=
  ⟨rfl, rfl⟩

theorem regStep_preserves_at_most_one (s s' : HostState)
    (hstep : RegStep s s') (rid : RegistrarId)
    (ih : (registrarHandlers s rid).length ≤ 1) :
    (registrarHandlers s' rid).length ≤ 1 := by
  cases hstep with
  | register h hs =>
    rename_i honce
    show (registrarHandlers
      (RegisterWithRegistrar (GetRegistrar s h) s) rid).length ≤ 1
    by_cases hrid : rid = GetRegistrar s h
    · subst hrid
      rw [registrarHandlers_register_self, honce]
      simp
    · rw [registrarHandlers_register_other _ _ _ hrid]
      exact ih

/-- C6: in every state reachable by the registration step relation, at
most one plugin handler is registered per registrar. -/
theorem c6_at_most_one_plugin_per_registrar (s : HostState)
    (hr : Reachable s) (rid : RegistrarId) :
    (registrarHandlers s rid).length ≤ 1 := by
  induction hr with
  | init => simp [registrarHandlers_initState]
  | step hr0 hstep ih =>
    exact regStep_preserves_at_most_one _ _ hstep rid ih

/-- Witness for C6 at the initial state and registrar 0. -/
theorem c6_witness :
    Reachable initState ∧ (registrarHandlers initState 0).length ≤ 1 :=
  ⟨Reachable.init,
    c6_at_most_one_plugin_per_registrar initState Reachable.init 0⟩

/-- C7: the opaque registrar handle is used for lookup only: the shim's
result depends on the handle only through the manager's resolution (so
the handle is never stored beyond the registration call), and the
manager table is never mutated by this code. -/
theorem c7_handle_lookup_only (h1 h2 : RegistrarHandle) (s : HostState)
    (hres : GetRegistrar s h1 = GetRegistrar s h2) :
    AdapterWebsocketPluginCApiRegisterWithRegistrar h1 s
      = AdapterWebsocketPluginCApiRegisterWithRegistrar h2 s ∧
    (AdapterWebsocketPluginCApiRegisterWithRegistrar h1 s).managerTable
      = s.managerTable := by
  unfold AdapterWebsocketPluginCApiRegisterWithRegistrar
  rw [hres]
  exact ⟨rfl, rfl⟩

/-- Witness for C7: the distinct handles 0 and 1 resolve to the same
registrar in `twoHandleState`, and registration through either handle
yields the same state. -/
theorem c7_witness :
    GetRegistrar twoHandleState 0 = GetRegistrar twoHandleState 1 ∧
    (AdapterWebsocketPluginCApiRegisterWithRegistrar 0 twoHandleState
      = AdapterWebsocketPluginCApiRegisterWithRegistrar 1 twoHandleState ∧
     (AdapterWebsocketPluginCApiRegisterWithRegistrar 0
        twoHandleState).managerTable = twoHandleState.managerTable) :=
  ⟨by rfl, c7_handle_lookup_only 0 1 twoHandleState (by rfl)⟩

/-- C8: the plugin is constructible with no state argument beyond the
host state and destructible; construction acquires no resources, and
construct-then-destruct leaves the plugin set, resources, registrars,
manager table and reported errors exactly as they were. -/
theorem c8_construct_destruct_frame (s : HostState)
    (hfresh : s.nextPluginId ∉ s.plugins) :
    (constructPlugin s).2.ownedResources = s.ownedResources ∧
    (destructPlugin (constructPlugin s).1 (constructPlugin s).2).plugins
      = s.plugins ∧
    (destructPlugin (constructPlugin s).1
        (constructPlugin s).2).ownedResources = s.ownedResources ∧
    (destructPlugin (constructPlugin s).1 (constructPlugin s).2).registrars
      = s.registrars ∧
    (destructPlugin (constructPlugin s).1
        (constructPlugin s).2).managerTable = s.managerTable ∧
    (destructPlugin (constructPlugin s).1
        (constructPlugin s).2).reportedErrors = s.reportedErrors := by
  refine ⟨rfl, ?_, rfl, rfl, rfl, rfl⟩
  show (s.plugins ++ [s.nextPluginId]).filter (· ≠ s.nextPluginId)
    = s.plugins
  rw [List.filter_append]
  have h1 : s.plugins.filter (· ≠ s.nextPluginId) = s.plugins := by
    rw [List.filter_eq_self]
    intro a ha
    simp only [decide_eq_true_eq]
    intro e
    exact hfresh (e ▸ ha)
  have h2 : ([s.nextPluginId] : List PluginId).filter
      (· ≠ s.nextPluginId) = [] := by simp
  rw [h1, h2, List.append_nil]

/-- Witness for C8 at the initial state. -/
theorem c8_witness :
    initState.nextPluginId ∉ initState.plugins ∧
    ((constructPlugin initState).2.ownedResources
        = initState.ownedResources ∧
     (destructPlugin (constructPlugin initState).1
        (constructPlugin initState).2).plugins = initState.plugins) := by
  have h := c8_construct_destruct_frame initState (by simp [initState])
  exact ⟨by simp [initState], h.1, h.2.1⟩

/-- C9: no operation of the public interface (registration, method-call
handling, destruction; copying is deleted in the header and hence
absent) can duplicate a plugin instance: the list of live instances
stays duplicate-free, and instance identities stay below the fresh-id
counter. -/
theorem c9_ops_preserve_uniqueness (op : PluginOp) (s : HostState)
    (hids : ∀ p ∈ s.plugins, p < s.nextPluginId)
    (hnodup : s.plugins.Nodup) :
    (applyOp op s).plugins.Nodup ∧
    ∀ p ∈ (applyOp op s).plugins, p < (applyOp op s).nextPluginId := by
  cases op with
  | registerViaCApi h =>
    constructor
    · show (s.plugins ++ [s.nextPluginId]).Nodup
      rw [List.nodup_append]
      refine ⟨hnodup, List.nodup_singleton _, ?_⟩
      intro a ha hb
      rw [List.mem_singleton] at hb
      subst hb
      exact absurd (hids _ ha) (lt_irrefl _)
    · show ∀ p ∈ s.plugins ++ [s.nextPluginId], p < s.nextPluginId + 1
      intro p hp
      rcases List.mem_append.mp hp with hp | hp
      · exact Nat.lt_succ_of_lt (hids p hp)
      · rw [List.mem_singleton] at hp
        subst hp
        exact Nat.lt_succ_self _
  | handleCall call => exact ⟨hnodup, hids⟩
  | destruct p =>
    refine ⟨hnodup.filter _, ?_⟩
    intro q hq
    exact hids q (List.mem_of_mem_filter hq)

/-- Witness for C9 at the registration operation on the initial state. -/
theorem c9_witness :
    (∀ p ∈ initState.plugins, p < initState.nextPluginId) ∧
    initState.plugins.Nodup ∧
    ((applyOp (PluginOp.registerViaCApi 0) initState).plugins.Nodup ∧
     ∀ p ∈ (applyOp (PluginOp.registerViaCApi 0) initState).plugins,
       p < (applyOp (PluginOp.registerViaCApi 0) initState).nextPluginId) :=
  ⟨by simp [initState], by simp [initState],
    c9_ops_preserve_uniqueness (PluginOp.registerViaCApi 0) initState
      (by simp [initState]) (by simp [initState])⟩

/-- C10: invoking `HandleMethodCall` transfers ownership of the result
object from the host caller into the handler (the `unique_ptr` parameter
is passed by value): after the call the caller no longer owns the
result, so any resolution attempt by the caller fails, and only the
handler's side resolved it. -/
theorem c10_result_ownership_transfer (call : MethodCall)
    (r : ResultState) :
    (invokeHandleMethodCall call r).owner = ResultOwner.pluginHandler ∧
    (invokeHandleMethodCall call r).owner ≠ ResultOwner.hostCaller ∧
    ∀ res : MethodResolution,
      hostResolve res (invokeHandleMethodCall call r) = none := by
  refine ⟨rfl, by simp [invokeHandleMethodCall], ?_⟩
  intro res
  simp [hostResolve, invokeHandleMethodCall]

end AdapterWebsocket
